import Mathlib

/-!
Shallow embedding of `src/renderer.rs` (casey/texture-read-issue).

The renderer drives a two-pass wgpu frame pipeline.  We embed:

* `Uniforms` and `Uniforms.data` — the 8-byte packed uniform record
  (`u32` pass index, `f32` resolution, both little-endian);
* `Renderer` — the fields of the Rust struct that the claims are about
  (GPU handles such as the sampler, pipeline, bind-group layout and
  uniform buffer are opaque `Nat` identifiers; textures receive fresh
  identifiers from a device-side counter `nextId`);
* `Renderer.target`, `Renderer.new`, `Renderer.resize`, `Renderer.render`
  — translated statement by statement from the source;
* a queue-operation trace semantics.  `Renderer.render` returns the list
  of queue operations it performs, in call order.  Per wgpu's documented
  semantics, `Queue::write_buffer` / `Queue::write_texture` are enqueued
  internally and execute at the start of the next `submit` call, and all
  queue operations execute in the order they were enqueued; the render
  passes recorded into the command encoder execute, in recording order,
  when the submitted command buffer runs.  Executing the trace in list
  order therefore models the device exactly: the buffered writes land
  before the submitted passes, in their enqueue order.
-/

/-- Little-endian byte serialization of a 32-bit unsigned integer
(`u32::to_le_bytes`). -/
def u32LeBytes (n : Nat) : List Nat :=
  [n % 256, n / 256 % 256, n / 65536 % 256, n / 16777216 % 256]

/-- Decode four little-endian bytes back into the `u32` they encode. -/
def u32FromLeBytes (l : List Nat) : Nat :=
  l.getD 0 0 + l.getD 1 0 * 256 + l.getD 2 0 * 65536 + l.getD 3 0 * 16777216

/-- IEEE-754 binary32 bit pattern of a natural number, rounding to
nearest, ties to even — the semantics of Rust's `u32 as f32` cast.
For `n < 2 ^ 24` the conversion is exact. -/
def f32BitsOfNat (n : Nat) : Nat :=
  if n = 0 then 0
  else
    let e := Nat.log2 n
    if e ≤ 23 then
      (e + 127) * 2 ^ 23 + (n - 2 ^ e) * 2 ^ (23 - e)
    else
      let shift := e - 23
      let q := n / 2 ^ shift
      let r := n % 2 ^ shift
      let half := 2 ^ (shift - 1)
      let q2 := if half < r ∨ (r = half ∧ q % 2 = 1) then q + 1 else q
      if q2 = 2 ^ 24 then (e + 1 + 127) * 2 ^ 23
      else (e + 127) * 2 ^ 23 + (q2 - 2 ^ 23)

/-- `const SAMPLE_UNIFORM_BUFFER_SIZE: u64 = 8` (renderer.rs line 18). -/
def SAMPLE_UNIFORM_BUFFER_SIZE : Nat := 8

/-- Size of the uniform buffer created in `Renderer::new`
(`size: SAMPLE_UNIFORM_BUFFER_SIZE`, renderer.rs line 183). -/
def uniformBufferSize : Nat := SAMPLE_UNIFORM_BUFFER_SIZE

/-- `min_binding_size` of the uniform slot in the bind group layout
(renderer.rs line 169). -/
def minBindingSize : Nat := SAMPLE_UNIFORM_BUFFER_SIZE

/-- `struct Uniforms { i: u32, resolution: f32 }`.  The `resolution`
field stores the IEEE-754 binary32 bit pattern of the float. -/
structure Uniforms where
  i : Nat
  resolution : Nat
deriving DecidableEq, Repr

/-- `Uniforms::data`: the pass index as 4 little-endian bytes followed by
the resolution float as 4 little-endian bytes (`f32::to_le_bytes` emits
the little-endian bytes of the bit pattern). -/
def Uniforms.data (u : Uniforms) : List Nat :=
  u32LeBytes u.i ++ u32LeBytes u.resolution

/-- Width and height of the surface configuration. -/
structure SurfaceConfiguration where
  width : Nat
  height : Nat
deriving DecidableEq, Repr

/-- `struct Target`: the backing texture (by identifier) and its
dimensions.  The texture view and bind group reference exactly this
texture, so the identifier stands for all three. -/
structure Target where
  textureId : Nat
  width : Nat
  height : Nat
deriving DecidableEq, Repr

/-- Where a render pass's color attachment points: an off-screen target
texture, or the acquired surface texture. -/
inductive Attachment where
  | target (id : Nat) : Attachment
  | surface : Attachment
deriving DecidableEq, Repr

/-- One render pass as recorded into the command encoder: its color
attachment (cleared to black before the draw), the texture bound through
the bind group at slot 0, and the draw call's vertex/instance counts. -/
structure RenderPassRec where
  attachment : Attachment
  clearBlack : Bool
  bindTexture : Nat
  vertices : Nat
  instances : Nat
deriving DecidableEq, Repr

/-- A queue operation, in the order the renderer enqueues it:
`write_texture` (destination texture, byte data, bytes_per_row,
rows_per_image, copy extent), `write_buffer` (buffer id, offset, data),
or `submit` of one command buffer holding the recorded passes. -/
inductive QueueOp where
  | writeTexture (texId : Nat) (data : List Nat) (bytesPerRow rowsPerImage extentW extentH : Nat) : QueueOp
  | writeBuffer (bufferId : Nat) (offset : Nat) (data : List Nat) : QueueOp
  | submit (passes : List RenderPassRec) : QueueOp
deriving DecidableEq, Repr

/-- The fields of `struct Renderer` that the claims concern.  GPU object
handles are opaque identifiers; `nextId` is the device-side counter
handing out fresh texture identifiers. -/
structure Renderer where
  bindGroupLayout : Nat
  config : SurfaceConfiguration
  frame : Nat
  renderPipeline : Nat
  sampler : Nat
  surfaceConfig : SurfaceConfiguration
  targets : List Target
  textureFormat : Nat
  uniformBuffer : Nat
  nextId : Nat
deriving DecidableEq, Repr

/-- `Renderer::target`: create one texture at the current `config`
dimensions (with render-attachment, texture-binding and copy-destination
usage), its full view, and a bind group wiring that view, the shared
sampler and the shared uniform buffer.  The fresh texture consumes the
next device identifier. -/
def Renderer.target (r : Renderer) : Target × Renderer :=
  (⟨r.nextId, r.config.width, r.config.height⟩, { r with nextId := r.nextId + 1 })

/-- `Renderer::new`: clamp the window size to a minimum of 1×1, derive
and apply the surface configuration, build the layout/sampler/uniform
buffer/pipeline, then push two targets built by `Renderer::target`. -/
def Renderer.new (width height : Nat) : Renderer :=
  let config : SurfaceConfiguration := ⟨width.max 1, height.max 1⟩
  let base : Renderer :=
    { bindGroupLayout := 0, config := config, frame := 0, renderPipeline := 0,
      sampler := 0, surfaceConfig := config, targets := [], textureFormat := 0,
      uniformBuffer := 0, nextId := 0 }
  let p0 := base.target
  let base1 := { p0.2 with targets := p0.2.targets ++ [p0.1] }
  let p1 := base1.target
  { p1.2 with targets := p1.2.targets ++ [p1.1] }

/-- `Renderer::resize`: clamp both dimensions to a minimum of 1, store
the new configuration, reconfigure the surface with it, then overwrite
`targets[0]` and `targets[1]` with freshly built targets.  The body
performs no queue operation, so the returned trace is empty. -/
def Renderer.resize (r : Renderer) (width height : Nat) : Renderer × List QueueOp :=
  let r1 := { r with config := ⟨width.max 1, height.max 1⟩ }
  let r2 := { r1 with surfaceConfig := r1.config }
  let p0 := r2.target
  let r3 := { p0.2 with targets := p0.2.targets.set 0 p0.1 }
  let p1 := r3.target
  let r4 := { p1.2 with targets := p1.2.targets.set 1 p1.1 }
  (r4, [])

/-- Result of one `Renderer::render` call: the renderer state afterwards
(`&mut self` semantics: unchanged on the early error return), the queue
operations performed in call order, and the `Result` value. -/
structure RenderOutcome where
  renderer : Renderer
  ops : List QueueOp
  result : Except String Unit
deriving Repr

/-- `Renderer::render`.  `surfaceAvailable` models whether
`surface.get_current_texture()` succeeds.  On failure the function
returns the error before any queue call, leaving the state untouched.
On success it enqueues, in order: the zero-fill `write_texture` into
target 0 (width·height·4 zero bytes, bytes_per_row = width·4, u32
arithmetic), the pass-0 uniform `write_buffer`, the pass-1 uniform
`write_buffer`, and the `submit` of the one command buffer holding
pass 0 (clear + draw into target 1 sampling target 0) followed by
pass 1 (clear + draw into the surface sampling target 1); it then
presents and increments `frame`. -/
def Renderer.render (r : Renderer) (surfaceAvailable : Bool) : RenderOutcome :=
  if surfaceAvailable then
    let w := r.config.width
    let h := r.config.height
    let t0 := r.targets.getD 0 ⟨0, 0, 0⟩
    let t1 := r.targets.getD 1 ⟨0, 0, 0⟩
    let uniforms0 : Uniforms := ⟨0, f32BitsOfNat (w.max h)⟩
    let uniforms1 : Uniforms := ⟨1, f32BitsOfNat (w.max h)⟩
    let pass0 : RenderPassRec := ⟨Attachment.target t1.textureId, true, t0.textureId, 3, 1⟩
    let pass1 : RenderPassRec := ⟨Attachment.surface, true, t1.textureId, 3, 1⟩
    { renderer := { r with frame := r.frame + 1 },
      ops := [
        QueueOp.writeTexture t0.textureId (List.replicate (w * h * 4 % 2 ^ 32) 0)
          (w * 4 % 2 ^ 32) h w h,
        QueueOp.writeBuffer r.uniformBuffer 0 uniforms0.data,
        QueueOp.writeBuffer r.uniformBuffer 0 uniforms1.data,
        QueueOp.submit [pass0, pass1]],
      result := Except.ok () }
  else
    { renderer := r, ops := [],
      result := Except.error "failed to acquire next swap chain texture" }

/-- Overwrite `data.length` bytes of `buf` starting at `offset`
(`Queue::write_buffer` data transfer; the buffer keeps its length). -/
def writeBytes (buf : List Nat) (offset : Nat) (data : List Nat) : List Nat :=
  (List.range buf.length).map
    (fun j => if offset ≤ j ∧ j < offset + data.length then data.getD (j - offset) 0 else buf.getD j 0)

/-- Effect of one queue operation on the uniform buffer `uid`'s
contents.  Buffered writes land when the operation executes; a submitted
command buffer's passes read the buffer but never write it. -/
def stepBuf (uid : Nat) (buf : List Nat) : QueueOp → List Nat
  | QueueOp.writeBuffer b off data => if b = uid then writeBytes buf off data else buf
  | _ => buf

/-- Execute a queue-operation trace in enqueue order and record, for each
pass draw executed inside a `submit`, the uniform buffer contents that
draw observes.  All buffered writes enqueued before the `submit` have
landed by then (wgpu executes queue operations in order, and
`write_buffer` data lands at the start of the next `submit`). -/
def drawObservations (uid : Nat) : List Nat → List QueueOp → List (List Nat)
  | _, [] => []
  | buf, op :: rest =>
      (match op with
       | QueueOp.submit passes => passes.map (fun _ => buf)
       | _ => []) ++ drawObservations uid (stepBuf uid buf op) rest

/-- Abstract per-texture content status: never written this frame,
uploaded raw bytes (`write_texture`), or the output of a render pass
that cleared the attachment and drew while sampling input with the given
status. -/
inductive TexStatus where
  | unknown : TexStatus
  | uploaded (data : List Nat) : TexStatus
  | drawnFrom (input : TexStatus) : TexStatus
deriving DecidableEq, Repr

/-- Execute the passes of one submitted command buffer in recording
order.  Returns the final texture-status map and, per pass, the status
of the texture the pass sampled at the moment its draw ran. -/
def execPasses (texs : Nat → TexStatus) : List RenderPassRec → (Nat → TexStatus) × List TexStatus
  | [] => (texs, [])
  | p :: rest =>
      let input := texs p.bindTexture
      let texs1 : Nat → TexStatus :=
        match p.attachment with
        | Attachment.target id => fun j => if j = id then TexStatus.drawnFrom input else texs j
        | Attachment.surface => texs
      let out := execPasses texs1 rest
      (out.1, input :: out.2)

/-- Effect of one queue operation on the texture-status map, together
with the per-draw sampled statuses it produces. -/
def stepTex (texs : Nat → TexStatus) : QueueOp → (Nat → TexStatus) × List TexStatus
  | QueueOp.writeTexture id data _ _ _ _ =>
      (fun j => if j = id then TexStatus.uploaded data else texs j, [])
  | QueueOp.writeBuffer _ _ _ => (texs, [])
  | QueueOp.submit passes => execPasses texs passes

/-- Execute a queue-operation trace in enqueue order and record, for
each pass draw, the status of the texture it sampled. -/
def texObservations (texs : Nat → TexStatus) : List QueueOp → List TexStatus
  | [] => []
  | op :: rest =>
      let out := stepTex texs op
      out.2 ++ texObservations out.1 rest

/-- The renderer invariant of the spec's data model: exactly two targets,
indexed 0 and 1, both sized exactly to the current surface
configuration. -/
def rendererInv (r : Renderer) : Prop :=
  r.targets.length = 2 ∧
    ∀ t ∈ r.targets, t.width = r.config.width ∧ t.height = r.config.height

instance (r : Renderer) : Decidable (rendererInv r) := by
  unfold rendererInv; infer_instance

/-- Helper: setting indices 0 and 1 of a two-element list replaces both
elements. -/
theorem targets_set_pair {α : Type} (l : List α) (hl : l.length = 2) (x y : α) :
    (l.set 0 x).set 1 y = [x, y] :=
  match l, hl with
  | [_, _], _ => rfl

/-- Claim C1.  The claim states that pass 0's draw observes
pass_index = 0.  In fact both `write_buffer` calls are queue operations
that execute before the single submitted command buffer, so by the time
either pass's draw runs the uniform buffer holds the second record: both
draws decode pass_index = 1, and the observation list is not the claimed
[0, 1].  Shown here at a renderer freshly constructed at 800×600. -/
theorem render_pass0_observes_pass_index_one :
    (drawObservations (Renderer.new 800 600).uniformBuffer (List.replicate 8 0)
        ((Renderer.new 800 600).render true).ops).map (fun b => u32FromLeBytes (b.take 4))
      = [1, 1] ∧
    (drawObservations (Renderer.new 800 600).uniformBuffer (List.replicate 8 0)
        ((Renderer.new 800 600).render true).ops).map (fun b => u32FromLeBytes (b.take 4))
      ≠ [0, 1] := by
  decide

/-- Claim C2.  Every successful frame enqueues exactly one submit, whose
command buffer records pass 0 (attachment = target 1, sampling target 0)
strictly before pass 1 (attachment = surface, sampling target 1); and
executing the trace from ANY initial texture state, pass 1 samples
target 1 with status `drawnFrom (uploaded zeros)` — exactly pass 0's
completed output, never a pre-pass-0 (cleared-only or stale) state. -/
theorem render_passes_ordered_in_one_submit (r : Renderer) (texs : Nat → TexStatus) :
    (r.render true).ops =
      [QueueOp.writeTexture (r.targets.getD 0 ⟨0, 0, 0⟩).textureId
         (List.replicate (r.config.width * r.config.height * 4 % 2 ^ 32) 0)
         (r.config.width * 4 % 2 ^ 32) r.config.height r.config.width r.config.height,
       QueueOp.writeBuffer r.uniformBuffer 0
         (Uniforms.mk 0 (f32BitsOfNat (r.config.width.max r.config.height))).data,
       QueueOp.writeBuffer r.uniformBuffer 0
         (Uniforms.mk 1 (f32BitsOfNat (r.config.width.max r.config.height))).data,
       QueueOp.submit
         [⟨Attachment.target (r.targets.getD 1 ⟨0, 0, 0⟩).textureId, true,
            (r.targets.getD 0 ⟨0, 0, 0⟩).textureId, 3, 1⟩,
          ⟨Attachment.surface, true, (r.targets.getD 1 ⟨0, 0, 0⟩).textureId, 3, 1⟩]] ∧
    texObservations texs (r.render true).ops =
      [TexStatus.uploaded (List.replicate (r.config.width * r.config.height * 4 % 2 ^ 32) 0),
       TexStatus.drawnFrom
         (TexStatus.uploaded (List.replicate (r.config.width * r.config.height * 4 % 2 ^ 32) 0))] := by
  refine ⟨rfl, ?_⟩
  simp [Renderer.render, texObservations, stepTex, execPasses]

/-- Claim C3.  When surface acquisition fails, `render` returns the
acquisition error before issuing any queue operation: the state
(including the frame counter) is untouched and the trace is empty; a
subsequent successful `render` increments the counter normally. -/
theorem render_acquire_failure_skips_frame (r : Renderer) :
    (r.render false).renderer = r ∧
    (r.render false).ops = [] ∧
    (r.render false).result = Except.error "failed to acquire next swap chain texture" ∧
    ((r.render false).renderer.render true).renderer.frame = r.frame + 1 ∧
    ((r.render false).renderer.render true).result = Except.ok () :=
  ⟨rfl, rfl, rfl, rfl, rfl⟩

/-- Claim C4.  `resize` clamps both dimensions to a minimum of 1,
stores the new configuration, reconfigures the surface with it, and
leaves both targets sized exactly `max(new_width, 1) × max(new_height, 1)`;
when both requested dimensions are at least 1, the targets report
exactly the requested size. -/
theorem resize_clamps_and_sizes_targets (r : Renderer) (w h : Nat)
    (hlen : r.targets.length = 2) :
    (r.resize w h).1.config = ⟨w.max 1, h.max 1⟩ ∧
    (r.resize w h).1.surfaceConfig = (r.resize w h).1.config ∧
    (∀ t ∈ (r.resize w h).1.targets, t.width = w.max 1 ∧ t.height = h.max 1) ∧
    (1 ≤ w → 1 ≤ h →
      ∀ t ∈ (r.resize w h).1.targets, t.width = w ∧ t.height = h) := by
  have ht : (r.resize w h).1.targets =
      [⟨r.nextId, w.max 1, h.max 1⟩, ⟨r.nextId + 1, w.max 1, h.max 1⟩] :=
    targets_set_pair r.targets hlen _ _
  refine ⟨rfl, rfl, ?_, ?_⟩
  · intro t htm
    rw [ht] at htm
    simp only [List.mem_cons, List.not_mem_nil, or_false] at htm
    rcases htm with rfl | rfl
    · exact ⟨rfl, rfl⟩
    · exact ⟨rfl, rfl⟩
  · intro hw hh t htm
    rw [ht] at htm
    simp only [List.mem_cons, List.not_mem_nil, or_false] at htm
    rcases htm with rfl | rfl
    · exact ⟨Nat.max_eq_left hw, Nat.max_eq_left hh⟩
    · exact ⟨Nat.max_eq_left hw, Nat.max_eq_left hh⟩

/-- Witness for C4 at a concrete renderer and size. -/
theorem resize_clamps_and_sizes_targets_witness :
    (Renderer.new 800 600).targets.length = 2 ∧
    (((Renderer.new 800 600).resize 1920 1080).1.config = ⟨Nat.max 1920 1, Nat.max 1080 1⟩ ∧
      ((Renderer.new 800 600).resize 1920 1080).1.surfaceConfig =
        ((Renderer.new 800 600).resize 1920 1080).1.config ∧
      (∀ t ∈ ((Renderer.new 800 600).resize 1920 1080).1.targets,
        t.width = Nat.max 1920 1 ∧ t.height = Nat.max 1080 1) ∧
      (1 ≤ 1920 → 1 ≤ 1080 →
        ∀ t ∈ ((Renderer.new 800 600).resize 1920 1080).1.targets,
          t.width = 1920 ∧ t.height = 1080)) :=
  ⟨by decide, resize_clamps_and_sizes_targets (Renderer.new 800 600) 1920 1080 (by decide)⟩

/-- Claim C5.  The first queue operation of every successful frame is
the zero-fill of target 0: a `write_texture` carrying exactly
width·height·4 zero bytes with bytes_per_row = width·4 over the full
width×height extent of target 0's texture (the trace does not depend on
any previous frame's contents).  The hypotheses rule out 32-bit overflow
of the `u32` products, as in the source. -/
theorem render_zero_initializes_target0 (r : Renderer)
    (hwh : r.config.width * r.config.height * 4 < 2 ^ 32)
    (hw : r.config.width * 4 < 2 ^ 32) :
    (r.render true).ops.getD 0 (QueueOp.submit []) =
      QueueOp.writeTexture (r.targets.getD 0 ⟨0, 0, 0⟩).textureId
        (List.replicate (r.config.width * r.config.height * 4) 0)
        (r.config.width * 4) r.config.height r.config.width r.config.height ∧
    (List.replicate (r.config.width * r.config.height * 4) (0 : Nat)).length =
      r.config.width * r.config.height * 4 ∧
    ∀ b ∈ List.replicate (r.config.width * r.config.height * 4) (0 : Nat), b = 0 := by
  refine ⟨?_, List.length_replicate _ _, ?_⟩
  · show QueueOp.writeTexture _ (List.replicate (r.config.width * r.config.height * 4 % 2 ^ 32) 0)
      (r.config.width * 4 % 2 ^ 32) _ _ _ = _
    rw [Nat.mod_eq_of_lt hwh, Nat.mod_eq_of_lt hw]
  · intro b hb
    exact (List.eq_of_mem_replicate hb)

/-- Witness for C5 at a concrete 800×600 renderer. -/
theorem render_zero_initializes_target0_witness :
    (Renderer.new 800 600).config.width * (Renderer.new 800 600).config.height * 4 < 2 ^ 32 ∧
    (Renderer.new 800 600).config.width * 4 < 2 ^ 32 ∧
    ((Renderer.new 800 600).render true).ops.getD 0 (QueueOp.submit []) =
      QueueOp.writeTexture ((Renderer.new 800 600).targets.getD 0 ⟨0, 0, 0⟩).textureId
        (List.replicate ((Renderer.new 800 600).config.width *
          (Renderer.new 800 600).config.height * 4) 0)
        ((Renderer.new 800 600).config.width * 4) (Renderer.new 800 600).config.height
        (Renderer.new 800 600).config.width (Renderer.new 800 600).config.height :=
  ⟨by decide, by decide,
    (render_zero_initializes_target0 (Renderer.new 800 600) (by decide) (by decide)).1⟩

/-- Claim C6.  The serialized uniform record is always exactly 8 bytes:
the pass index as 4 little-endian `u32` bytes at offset 0 followed by
the 4 little-endian bytes of the IEEE-754 binary32 encoding of the
resolution; and each frame's two buffer writes target the shared uniform
buffer at offset 0 carrying the records with pass index 0 and 1 and
resolution = max(current width, current height) converted to `f32`. -/
theorem uniform_record_serialization (i res : Nat) (r : Renderer) :
    (Uniforms.mk i res).data = u32LeBytes i ++ u32LeBytes res ∧
    (Uniforms.mk i res).data.length = 8 ∧
    (Uniforms.mk i res).data.take 4 = u32LeBytes i ∧
    (Uniforms.mk i res).data.drop 4 = u32LeBytes res ∧
    (r.render true).ops.getD 1 (QueueOp.submit []) =
      QueueOp.writeBuffer r.uniformBuffer 0
        (Uniforms.mk 0 (f32BitsOfNat (r.config.width.max r.config.height))).data ∧
    (r.render true).ops.getD 2 (QueueOp.submit []) =
      QueueOp.writeBuffer r.uniformBuffer 0
        (Uniforms.mk 1 (f32BitsOfNat (r.config.width.max r.config.height))).data :=
  ⟨rfl, rfl, rfl, rfl, rfl, rfl⟩

/-- Claim C7.  After construction, and preserved by every `resize` and
every `render` (successful or not), the renderer holds exactly two
targets, both sized exactly to the current surface configuration. -/
theorem renderer_two_targets_invariant :
    (∀ w h, rendererInv (Renderer.new w h)) ∧
    (∀ r w h, rendererInv r → rendererInv (r.resize w h).1) ∧
    (∀ r b, rendererInv r → rendererInv ((r.render b).renderer)) := by
  refine ⟨?_, ?_, ?_⟩
  · intro w h
    refine ⟨rfl, ?_⟩
    intro t htm
    have htg : (Renderer.new w h).targets =
        [⟨0, w.max 1, h.max 1⟩, ⟨1, w.max 1, h.max 1⟩] := rfl
    rw [htg] at htm
    simp only [List.mem_cons, List.not_mem_nil, or_false] at htm
    rcases htm with rfl | rfl
    · exact ⟨rfl, rfl⟩
    · exact ⟨rfl, rfl⟩
  · intro r w h hr
    have ht : (r.resize w h).1.targets =
        [⟨r.nextId, w.max 1, h.max 1⟩, ⟨r.nextId + 1, w.max 1, h.max 1⟩] :=
      targets_set_pair r.targets hr.1 _ _
    refine ⟨by rw [ht]; rfl, ?_⟩
    intro t htm
    rw [ht] at htm
    simp only [List.mem_cons, List.not_mem_nil, or_false] at htm
    rcases htm with rfl | rfl
    · exact ⟨rfl, rfl⟩
    · exact ⟨rfl, rfl⟩
  · intro r b hr
    cases b
    · exact hr
    · exact hr

/-- Witness for C7: the invariant instantiated along a concrete
construct → resize → render trajectory. -/
theorem renderer_two_targets_invariant_witness :
    rendererInv (Renderer.new 800 600) ∧
    rendererInv ((Renderer.new 800 600).resize 1920 1080).1 ∧
    rendererInv (((Renderer.new 800 600).render true).renderer) :=
  ⟨renderer_two_targets_invariant.1 800 600,
   renderer_two_targets_invariant.2.1 (Renderer.new 800 600) 1920 1080 (by decide),
   renderer_two_targets_invariant.2.2 (Renderer.new 800 600) true (by decide)⟩

/-- Claim C8.  `resize` always builds two fresh targets (consuming two
fresh device identifiers, distinct from every previously issued one) and
replaces both stored targets, with no comparison against the previous
size: the resulting targets depend only on the requested size and the
device counter, not on the previous configuration or targets — in
particular a resize to the unchanged current size still rebuilds. -/
theorem resize_unconditionally_rebuilds (r s : Renderer) (w h : Nat)
    (hr : r.targets.length = 2) (hs : s.targets.length = 2)
    (hid : r.nextId = s.nextId) :
    (r.resize w h).1.targets =
      [⟨r.nextId, w.max 1, h.max 1⟩, ⟨r.nextId + 1, w.max 1, h.max 1⟩] ∧
    (r.resize w h).1.nextId = r.nextId + 2 ∧
    (∀ t ∈ r.targets, t.textureId < r.nextId →
      ∀ u ∈ (r.resize w h).1.targets, u.textureId ≠ t.textureId) ∧
    (r.resize w h).1.targets = (s.resize w h).1.targets := by
  have ht : (r.resize w h).1.targets =
      [⟨r.nextId, w.max 1, h.max 1⟩, ⟨r.nextId + 1, w.max 1, h.max 1⟩] :=
    targets_set_pair r.targets hr _ _
  have hs2 : (s.resize w h).1.targets =
      [⟨s.nextId, w.max 1, h.max 1⟩, ⟨s.nextId + 1, w.max 1, h.max 1⟩] :=
    targets_set_pair s.targets hs _ _
  refine ⟨ht, rfl, ?_, ?_⟩
  · intro t _ htid u hu
    rw [ht] at hu
    simp only [List.mem_cons, List.not_mem_nil, or_false] at hu
    rcases hu with rfl | rfl
    · exact fun hcontra => absurd hcontra.symm (Nat.ne_of_lt htid)
    · exact fun hcontra => absurd hcontra.symm (Nat.ne_of_lt (Nat.lt_succ_of_lt htid))
  · rw [ht, hs2, hid]

/-- Witness for C8: a resize to the unchanged current size (800×600)
still produces two freshly built targets with new identifiers. -/
theorem resize_unconditionally_rebuilds_witness :
    (Renderer.new 800 600).targets.length = 2 ∧
    ((Renderer.new 800 600).resize 800 600).1.targets =
      [⟨(Renderer.new 800 600).nextId, Nat.max 800 1, Nat.max 600 1⟩,
       ⟨(Renderer.new 800 600).nextId + 1, Nat.max 800 1, Nat.max 600 1⟩] :=
  ⟨by decide,
   (resize_unconditionally_rebuilds (Renderer.new 800 600) (Renderer.new 800 600) 800 600
     (by decide) (by decide) rfl).1⟩

/-- Claim C9.  Every serialized uniform record is exactly
`SAMPLE_UNIFORM_BUFFER_SIZE` (= 8) bytes, which is also the created
uniform buffer's size and the layout's `min_binding_size`; and every
buffer write a frame enqueues targets the shared uniform buffer at
offset 0 with an 8-byte payload, hence stays within the buffer's bounds
and meets the binding-size constraint. -/
theorem uniform_writes_in_bounds (u : Uniforms) (r : Renderer) (bid off : Nat) (d : List Nat)
    (hmem : QueueOp.writeBuffer bid off d ∈ (r.render true).ops) :
    u.data.length = SAMPLE_UNIFORM_BUFFER_SIZE ∧
    uniformBufferSize = SAMPLE_UNIFORM_BUFFER_SIZE ∧
    minBindingSize = SAMPLE_UNIFORM_BUFFER_SIZE ∧
    bid = r.uniformBuffer ∧
    off = 0 ∧
    d.length = SAMPLE_UNIFORM_BUFFER_SIZE ∧
    off + d.length ≤ uniformBufferSize ∧
    d.length = minBindingSize := by
  simp only [Renderer.render, if_true, List.mem_cons, List.not_mem_nil, or_false] at hmem
  rcases hmem with hmem | hmem | hmem | hmem
  · exact absurd hmem (by simp)
  · obtain ⟨hb, ho, hd⟩ := QueueOp.writeBuffer.inj hmem
    subst hb; subst ho; subst hd
    exact ⟨rfl, rfl, rfl, rfl, rfl, rfl, Nat.le_refl 8, rfl⟩
  · obtain ⟨hb, ho, hd⟩ := QueueOp.writeBuffer.inj hmem
    subst hb; subst ho; subst hd
    exact ⟨rfl, rfl, rfl, rfl, rfl, rfl, Nat.le_refl 8, rfl⟩
  · exact absurd hmem (by simp)

/-- Witness for C9 at the pass-0 write of a 1×1 renderer's frame. -/
theorem uniform_writes_in_bounds_witness :
    QueueOp.writeBuffer (Renderer.new 1 1).uniformBuffer 0
        (Uniforms.mk 0 (f32BitsOfNat 1)).data ∈ ((Renderer.new 1 1).render true).ops ∧
    (0 : Nat) + (Uniforms.mk 0 (f32BitsOfNat 1)).data.length ≤ uniformBufferSize :=
  ⟨List.Mem.tail _ (List.Mem.head _),
   (uniform_writes_in_bounds (Uniforms.mk 0 (f32BitsOfNat 1)) (Renderer.new 1 1)
     (Renderer.new 1 1).uniformBuffer 0 (Uniforms.mk 0 (f32BitsOfNat 1)).data
     (List.Mem.tail _ (List.Mem.head _))).2.2.2.2.2.2.1⟩

/-- Claim C10.  `resize` changes only the stored configuration, the
surface configuration and the two targets: the frame counter, texture
format, sampler, render pipeline, bind group layout and uniform buffer
handle are untouched, and the body performs no queue operation, so the
uniform buffer's contents (in particular the previously written
resolution) survive every resize until the next `render` rewrites
them. -/
theorem resize_touches_only_config_and_targets (r : Renderer) (w h : Nat) :
    (r.resize w h).1.frame = r.frame ∧
    (r.resize w h).1.textureFormat = r.textureFormat ∧
    (r.resize w h).1.sampler = r.sampler ∧
    (r.resize w h).1.renderPipeline = r.renderPipeline ∧
    (r.resize w h).1.bindGroupLayout = r.bindGroupLayout ∧
    (r.resize w h).1.uniformBuffer = r.uniformBuffer ∧
    (r.resize w h).2 = [] ∧
    ∀ buf : List Nat, List.foldl (stepBuf r.uniformBuffer) buf (r.resize w h).2 = buf :=
  ⟨rfl, rfl, rfl, rfl, rfl, rfl, rfl, fun _ => rfl⟩
